import Mathlib

/-!
Shallow embedding of the Smart Garbage Segregation service
(src/utils.py and src/main.py) and verification of its specification.

Modelling conventions:
* PIL images are a structure carrying a color mode, dimensions, a pixel
  function and a palette (used for palette-mode images only).
* numpy arrays are a shape (list of dimensions) together with a total data
  function from index lists to rationals; the float division by 255.0 of
  8-bit integer pixel values is modelled exactly over ℚ.
* External library calls (PIL resize resampling, TensorFlow inference,
  image decoding) are parameters of the model: resampling is an arbitrary
  pixel-producing function, the model handle is an arbitrary function from
  the batched array to prediction rows that may also fail, and the decoded
  upload is an arbitrary `Except`-value.
* Python exception flow is modelled with `Except String`: each fallible
  step either produces a value or an error string, and the request handler
  catches every pipeline error, exactly as the single try/except in
  src/main.py does.
-/

namespace SmartGarbage

/-- PIL color modes that the claims mention: truecolor, truecolor with
alpha, 8-bit grayscale, and palette. -/
inductive Mode where
  | RGB
  | RGBA
  | L
  | P
deriving DecidableEq, Repr

/-- Number of channels a numpy conversion of a PIL image of this mode
produces per pixel. -/
def Mode.channels : Mode → Nat
  | .RGB => 3
  | .RGBA => 4
  | .L => 1
  | .P => 1

/-- Model of a PIL image: mode, size, pixel values (x, y, channel) and the
palette lookup table (meaningful for mode P only). For the 8-bit modes the
stored pixel values are bytes; the model does not need that invariant
because the uint8 cast in `npArrayU8` reduces every value mod 256. -/
structure PILImage where
  mode : Mode
  width : Nat
  height : Nat
  px : Nat → Nat → Nat → Nat
  palette : Nat → Nat → Nat

/-- Model of a numpy ndarray over exact rationals: a shape together with a
total data function on index lists. -/
structure NDArray where
  shape : List Nat
  data : List Nat → ℚ

/-- The resampling filter of PIL Image.resize (LANCZOS in the source), an
external library computation abstracted as an arbitrary function from the
source image and target coordinates (x, y, channel) to a pixel value. -/
def Resample := PILImage → Nat → Nat → Nat → Nat

/-- Model of PIL Image.resize: returns an image of the requested size and
the same mode, with pixel values produced by the resampling filter
(src/utils.py line 41). -/
def PILImage.resize (img : PILImage) (resample : Resample) (w h : Nat) : PILImage :=
  { mode := img.mode
    width := w
    height := h
    px := resample img
    palette := img.palette }

/-- Model of PIL Image.convert to RGB (src/main.py line 112): RGB is the
identity, RGBA drops the alpha channel, grayscale replicates the single
channel, palette mode looks the pixel index up in the palette. -/
def PILImage.convert_RGB (img : PILImage) : PILImage :=
  { mode := Mode.RGB
    width := img.width
    height := img.height
    palette := img.palette
    px := fun x y c =>
      match img.mode with
      | Mode.RGB => img.px x y c
      | Mode.RGBA => img.px x y c
      | Mode.L => img.px x y 0
      | Mode.P => img.palette (img.px x y 0) c }

/-- Model of numpy.array(image, dtype=uint8) (src/utils.py line 43): a
single-channel image yields a 2-dimensional (height, width) array, a
multi-channel image a 3-dimensional (height, width, channels) array; the
uint8 dtype reduces every pixel value mod 256. -/
def npArrayU8 (img : PILImage) : NDArray :=
  if img.mode.channels = 1 then
    { shape := [img.height, img.width]
      data := fun idx =>
        match idx with
        | [y, x] => ((img.px x y 0 % 256 : Nat) : ℚ)
        | _ => 0 }
  else
    { shape := [img.height, img.width, img.mode.channels]
      data := fun idx =>
        match idx with
        | [y, x, c] => ((img.px x y c % 256 : Nat) : ℚ)
        | _ => 0 }

/-- src/utils.py lines 30-47: resize to 300 by 300 with the (abstracted)
LANCZOS filter, convert to a uint8 numpy array, divide by 255.0. -/
def preprocess (resample : Resample) (image : PILImage) : NDArray :=
  let image := image.resize resample 300 300
  let arr := npArrayU8 image
  { shape := arr.shape, data := fun idx => arr.data idx / 255 }

/-- Model of numpy.expand_dims(processed, axis=0) (src/main.py line 118). -/
def expand_dims0 (a : NDArray) : NDArray :=
  { shape := 1 :: a.shape
    data := fun idx =>
      match idx with
      | 0 :: rest => a.data rest
      | _ => 0 }

/-- The normalization performed per request by the predict handler
(src/main.py lines 111-115): convert non-RGB inputs to RGB, then call
preprocess. -/
def normalizePipeline (resample : Resample) (image : PILImage) : NDArray :=
  preprocess resample (if image.mode ≠ Mode.RGB then image.convert_RGB else image)

/-- Hardcoded labels, src/utils.py lines 16-23; a dict lookup, so indices
outside the domain yield none (a Python KeyError). -/
def LABELS : Nat → Option String
  | 0 => some "cardboard"
  | 1 => some "glass"
  | 2 => some "metal"
  | 3 => some "paper"
  | 4 => some "plastic"
  | 5 => some "trash"
  | _ => none

/-- src/utils.py line 26. -/
def RECYCLABLE_CATEGORIES : List String :=
  ["cardboard", "glass", "metal", "paper", "plastic"]

/-- src/utils.py line 27. -/
def OTHER_CATEGORIES : List String := ["trash"]

/-- Model of the Python str.lower method: map every character of the
string to its lowercase form. -/
def strLower (s : String) : String := ⟨s.data.map Char.toLower⟩

/-- src/utils.py lines 104-119: lowercase the class name and test
membership in the recyclable category list. -/
def classify_recyclable (predicted_class : String) : String × Nat :=
  if strLower predicted_class ∈ RECYCLABLE_CATEGORIES then
    ("Recyclable", 90)
  else
    ("Other", 0)

/-- One fold step of numpy argmax over the tail result: the running best
value is kept only when it is strictly greater than the current head, which
gives the first (lowest-index) maximum. -/
def argmaxStep (x : ℚ) : Option (Nat × ℚ) → Nat × ℚ
  | none => (0, x)
  | some (j, v) => if v > x then (j + 1, v) else (0, x)

/-- Model of numpy.argmax together with the value at that index; none on an
empty vector (numpy raises there). -/
def argmaxWithVal : List ℚ → Option (Nat × ℚ)
  | [] => none
  | x :: xs => some (argmaxStep x (argmaxWithVal xs))

/-- Model of numpy.argmax (src/main.py line 124). -/
def np_argmax (l : List ℚ) : Option Nat :=
  (argmaxWithVal l).map Prod.fst

/-- One fold step of numpy max over the tail result. -/
def maxStep (x : ℚ) : Option ℚ → ℚ
  | none => x
  | some v => max x v

/-- Model of numpy.max (src/main.py line 125); none on an empty vector. -/
def np_max : List ℚ → Option ℚ
  | [] => none
  | x :: xs => some (maxStep x (np_max xs))

/-- The loaded inference model (external TensorFlow computation): a
function from the batched input array to the list of prediction rows,
which may also fail with an exception. -/
def Model := NDArray → Except String (List (List ℚ))

/-- Lift an optional value into Except, naming the Python exception text
raised when the value is absent. -/
def exceptOfOption (e : String) : Option α → Except String α
  | some a => .ok a
  | none => .error e

/-- The successful JSON response body of the predict handler
(src/main.py lines 134-139). -/
structure PredictOk where
  predicted_class : String
  confidence : ℚ
  bin : String
  servo_angle : Nat
deriving DecidableEq, Repr

/-- src/main.py lines 124-139, the part of the pipeline after inference:
argmax, max, label lookup, bin classification, response construction. Each
match on error models Python exception propagation out of the try block. -/
def postInference (row : List ℚ) : Except String PredictOk :=
  match exceptOfOption "attempt to get argmax of an empty sequence" (np_argmax row) with
  | .error e => .error e
  | .ok predicted_index =>
    match exceptOfOption "zero-size array to reduction operation maximum" (np_max row) with
    | .error e => .error e
    | .ok confidence =>
      match exceptOfOption (toString predicted_index) (LABELS predicted_index) with
      | .error e => .error e
      | .ok predicted_class =>
        match classify_recyclable predicted_class with
        | (bin_type, servo_angle) =>
          .ok { predicted_class := predicted_class
                confidence := confidence
                bin := bin_type
                servo_angle := servo_angle }

/-- src/main.py lines 104-139, the body of the try block: the decoded
upload (reading and decoding abstracted as an Except parameter), the RGB
conversion and preprocess, the batch dimension, inference, row extraction,
and the post-inference steps. -/
def predictPipeline (m : Model) (resample : Resample)
    (decoded : Except String PILImage) : Except String PredictOk :=
  match decoded with
  | .error e => .error e
  | .ok image =>
    let image_batch := expand_dims0 (normalizePipeline resample image)
    match m image_batch with
    | .error e => .error e
    | .ok predictions =>
      match exceptOfOption "list index out of range" predictions[0]? with
      | .error e => .error e
      | .ok row => postInference row

/-- Outcome of the predict handler: a 200 JSON body, the 500 model-missing
response, or the 400 processing-error response. -/
inductive PredictResult where
  | ok (r : PredictOk)
  | modelNotLoaded
  | processingError (msg : String)
deriving DecidableEq, Repr

/-- HTTP status of each predict outcome (src/main.py lines 101, 134, 142). -/
def PredictResult.status : PredictResult → Nat
  | .ok _ => 200
  | .modelNotLoaded => 500
  | .processingError _ => 400

/-- HTTPException detail of each predict outcome; none for a success. -/
def PredictResult.detail : PredictResult → Option String
  | .ok _ => none
  | .modelNotLoaded => some "Model not loaded"
  | .processingError msg => some msg

/-- src/main.py lines 82-142: the predict handler. The model-is-None check
comes before the try block; every pipeline exception is converted by the
single except clause into the 400 response embedding the error text. -/
def predict (model : Option Model) (resample : Resample)
    (decoded : Except String PILImage) : PredictResult :=
  match model with
  | none => .modelNotLoaded
  | some m =>
    match predictPipeline m resample decoded with
    | .ok r => .ok r
    | .error e => .processingError ("Error processing image: " ++ e)

/-- Response body of the health endpoint (src/main.py lines 150-153). -/
structure HealthBody where
  status : String
  model_loaded : Bool
deriving DecidableEq, Repr

/-- src/main.py lines 145-153: the health handler returns a plain dict, so
the framework status code is 200. -/
def health_check (model : Option Model) : Nat × HealthBody :=
  (200, { status := "healthy", model_loaded := model.isSome })

/-- src/main.py lines 67-79: serve static/index.html, whose contents are
modelled as an optional string (none when the file is missing, the
FileNotFoundError case); the handler then answers 404 with the inline
error body. -/
def read_root (indexHtml : Option String) : Nat × String :=
  match indexHtml with
  | some s => (200, s)
  | none => (404, "<h1>Error: index.html not found</h1>")

/-- The process-wide state: the single global model variable
(src/main.py line 40). -/
structure ServerState where
  model : Option Model

/-- The predict handler as a state transformer: it reads the global model
and performs no assignment to it. -/
def predict_route (st : ServerState) (resample : Resample)
    (decoded : Except String PILImage) : PredictResult × ServerState :=
  (predict st.model resample decoded, st)

/-- The health handler as a state transformer: reads the global model,
never assigns it. -/
def health_route (st : ServerState) : (Nat × HealthBody) × ServerState :=
  (health_check st.model, st)

/-- The root handler as a state transformer: does not touch the model. -/
def root_route (st : ServerState) (indexHtml : Option String) :
    (Nat × String) × ServerState :=
  (read_root indexHtml, st)

/-- src/main.py lines 43-64: the startup routine assigns the global model
on a successful load; on failure it re-raises and leaves the state
unchanged. The file-system and weight-loading work is abstracted as the
Except parameter. -/
def load_model_on_startup (st : ServerState) (loaded : Except String Model) :
    Except String Unit × ServerState :=
  match loaded with
  | .ok m => (.ok (), { st with model := some m })
  | .error e => (.error e, st)

/-! Helper images and external-call stand-ins used by concrete witnesses. -/

/-- A concrete grayscale 2 by 2 test image. -/
def witImageL : PILImage :=
  { mode := Mode.L, width := 2, height := 2
    px := fun _ _ _ => 7, palette := fun _ _ => 0 }

/-- A concrete RGBA 2 by 2 test image. -/
def witImageRGBA : PILImage :=
  { mode := Mode.RGBA, width := 2, height := 2
    px := fun _ _ _ => 12, palette := fun _ _ => 0 }

/-- A concrete RGB 2 by 2 test image. -/
def witImageRGB : PILImage :=
  { mode := Mode.RGB, width := 2, height := 2
    px := fun _ _ _ => 3, palette := fun _ _ => 0 }

/-- A concrete resampling filter. -/
def witResample : Resample := fun _ _ _ _ => 7

/-- A concrete model returning one well-formed 6-wide probability row. -/
def witModel : Model := fun _ => .ok [[1, 0, 0, 0, 0, 0]]

/-- A concrete model whose output row is 7 wide with the maximum at
index 6, outside the label table. -/
def witModel7 : Model := fun _ => .ok [[0, 0, 0, 0, 0, 0, 1]]

/-! Theorems. -/

/-- C1: classify_recyclable is total over all strings and case-insensitive:
it returns ("Recyclable", 90) exactly when the lower-cased input is one of
cardboard, glass, metal, paper, plastic, and ("Other", 0) for every other
string; its servo-angle component is always 0 or 90, "Cardboard" maps to
the recyclable branch and "trash" to the other branch. -/
theorem classify_recyclable_total_case_insensitive (s : String) :
    (classify_recyclable s = ("Recyclable", 90) ↔
      strLower s ∈ RECYCLABLE_CATEGORIES) ∧
    (classify_recyclable s = ("Other", 0) ↔
      strLower s ∉ RECYCLABLE_CATEGORIES) ∧
    ((classify_recyclable s).2 = 0 ∨ (classify_recyclable s).2 = 90) ∧
    classify_recyclable "Cardboard" = ("Recyclable", 90) ∧
    classify_recyclable "trash" = ("Other", 0) ∧
    ∀ t : String, strLower t ∈ ["cardboard", "glass", "metal", "paper", "plastic"] →
      classify_recyclable t = ("Recyclable", 90) := by
  refine ⟨?_, ?_, ?_, by decide, by decide, ?_⟩
  · by_cases h : strLower s ∈ RECYCLABLE_CATEGORIES <;> simp [classify_recyclable, h]
  · by_cases h : strLower s ∈ RECYCLABLE_CATEGORIES <;> simp [classify_recyclable, h]
  · by_cases h : strLower s ∈ RECYCLABLE_CATEGORIES <;> simp [classify_recyclable, h]
  · intro t ht
    have hmem : strLower t ∈ RECYCLABLE_CATEGORIES := by
      simpa [RECYCLABLE_CATEGORIES] using ht
    simp [classify_recyclable, hmem]

/-- C4: whenever the model is loaded and the processing pipeline fails with
any exception, the predict handler answers with the single 400
processing-error response whose detail embeds the underlying error text,
and the handler itself returns a value (no exception escapes it). -/
theorem predict_pipeline_error_to_400 (m : Model) (resample : Resample)
    (decoded : Except String PILImage) (e : String)
    (h : predictPipeline m resample decoded = .error e) :
    predict (some m) resample decoded =
      .processingError ("Error processing image: " ++ e) ∧
    (predict (some m) resample decoded).status = 400 ∧
    (predict (some m) resample decoded).detail =
      some ("Error processing image: " ++ e) := by
  refine ⟨?_, ?_, ?_⟩ <;> simp [predict, h, PredictResult.status, PredictResult.detail]

/-- Witness for C4 at a concrete failing decode. -/
theorem predict_pipeline_error_to_400_witness :
    predictPipeline witModel witResample (.error "cannot identify image file") =
      .error "cannot identify image file" ∧
    (predict (some witModel) witResample (.error "cannot identify image file") =
      .processingError ("Error processing image: " ++ "cannot identify image file") ∧
    (predict (some witModel) witResample (.error "cannot identify image file")).status = 400 ∧
    (predict (some witModel) witResample (.error "cannot identify image file")).detail =
      some ("Error processing image: " ++ "cannot identify image file")) :=
  ⟨rfl, predict_pipeline_error_to_400 witModel witResample
    (.error "cannot identify image file") "cannot identify image file" rfl⟩

/-- C5: with the model handle uninitialized, predict answers the fixed
500 "Model not loaded" response, and the answer does not depend on any
pipeline input, so no pipeline step is executed. -/
theorem predict_model_not_loaded (resample : Resample)
    (decoded : Except String PILImage) :
    predict none resample decoded = .modelNotLoaded ∧
    (predict none resample decoded).status = 500 ∧
    (predict none resample decoded).detail = some "Model not loaded" ∧
    ∀ (resample2 : Resample) (decoded2 : Except String PILImage),
      predict none resample decoded = predict none resample2 decoded2 :=
  ⟨rfl, rfl, rfl, fun _ _ => rfl⟩

/-- C6: the health handler always answers 200 with exactly
status "healthy" and a model_loaded boolean that is true precisely when
the model handle is initialized. -/
theorem health_check_spec (model : Option Model) :
    health_check model =
      (200, { status := "healthy", model_loaded := model.isSome }) ∧
    ((health_check model).2.model_loaded = true ↔ model ≠ none) ∧
    (health_check model).2.status = "healthy" ∧
    (health_check model).1 = 200 := by
  refine ⟨rfl, ?_, rfl, rfl⟩
  simp [health_check, Option.isSome_iff_ne_none]

/-- C7: the root handler returns the static document with a 200 status
when it exists, and the inline error body with a 404 status when it is
missing, in both cases returning a value rather than raising. -/
theorem read_root_spec (s : String) :
    read_root (some s) = (200, s) ∧
    read_root none = (404, "<h1>Error: index.html not found</h1>") :=
  ⟨rfl, rfl⟩

/-- C8: no request handler mutates the process-wide model handle: the
predict, health and root routes leave the server state's model field
unchanged, while the startup routine is the one that assigns it (and
leaves it unchanged when loading fails). -/
theorem handlers_do_not_mutate_model (st : ServerState) (resample : Resample)
    (decoded : Except String PILImage) (indexHtml : Option String)
    (m : Model) (e : String) :
    (predict_route st resample decoded).2.model = st.model ∧
    (health_route st).2.model = st.model ∧
    (root_route st indexHtml).2.model = st.model ∧
    (load_model_on_startup st (.ok m)).2.model = some m ∧
    (load_model_on_startup st (.error e)).2.model = st.model :=
  ⟨rfl, rfl, rfl, rfl, rfl⟩

/-- The conversion step of the predict handler always yields an RGB-mode
image. -/
theorem convert_if_mode_RGB (image : PILImage) :
    (if image.mode ≠ Mode.RGB then image.convert_RGB else image).mode = Mode.RGB := by
  by_cases h : image.mode = Mode.RGB
  · simp [h]
  · simp [h, PILImage.convert_RGB]

/-- preprocess of an RGB image yields a 300 by 300 by 3 array. -/
theorem preprocess_shape_RGB (resample : Resample) (image : PILImage)
    (h : image.mode = Mode.RGB) :
    (preprocess resample image).shape = [300, 300, 3] := by
  simp [preprocess, npArrayU8, PILImage.resize, h, Mode.channels]

/-- The value of preprocess of an RGB image at a 3-dimensional index is
the resampled pixel value cast to uint8 and divided by 255. -/
theorem preprocess_data_RGB (resample : Resample) (image : PILImage)
    (h : image.mode = Mode.RGB) (y x c : Nat) :
    (preprocess resample image).data [y, x, c] =
      ((resample image x y c % 256 : Nat) : ℚ) / 255 := by
  simp [preprocess, npArrayU8, PILImage.resize, h, Mode.channels]

/-- Division of a byte value by 255 lands in the unit interval. -/
theorem rat_div255_mem_unit (v : Nat) (hv : v ≤ 255) :
    0 ≤ ((v : ℚ) / 255) ∧ ((v : ℚ) / 255) ≤ 1 := by
  constructor
  · positivity
  · rw [div_le_one (by norm_num)]
    exact_mod_cast hv

/-- C2: for every input image of any size and mode, the per-request
normalization (RGB conversion followed by preprocess) yields an array of
shape 300 by 300 by 3 whose value at every valid index is an integer in
[0, 255] divided by 255, hence lies in [0, 1]. -/
theorem normalize_shape_and_range (resample : Resample) (image : PILImage)
    (y x c : Nat) (_hy : y < 300) (_hx : x < 300) (_hc : c < 3) :
    (normalizePipeline resample image).shape = [300, 300, 3] ∧
    ∃ v : Nat, v ≤ 255 ∧
      (normalizePipeline resample image).data [y, x, c] = (v : ℚ) / 255 ∧
      0 ≤ (normalizePipeline resample image).data [y, x, c] ∧
      (normalizePipeline resample image).data [y, x, c] ≤ 1 := by
  have hmode := convert_if_mode_RGB image
  simp only [normalizePipeline]
  set img2 := (if image.mode ≠ Mode.RGB then image.convert_RGB else image) with himg2
  have hv : resample img2 x y c % 256 ≤ 255 :=
    Nat.le_of_lt_succ (Nat.mod_lt _ (by norm_num))
  refine ⟨preprocess_shape_RGB resample img2 hmode,
    resample img2 x y c % 256, hv, preprocess_data_RGB resample img2 hmode y x c, ?_, ?_⟩
  · rw [preprocess_data_RGB resample img2 hmode y x c]
    exact (rat_div255_mem_unit _ hv).1
  · rw [preprocess_data_RGB resample img2 hmode y x c]
    exact (rat_div255_mem_unit _ hv).2

/-- Witness for C2 at a concrete grayscale image and index (0, 0, 0). -/
theorem normalize_shape_and_range_witness :
    (0 : Nat) < 300 ∧ (0 : Nat) < 300 ∧ (0 : Nat) < 3 ∧
    ((normalizePipeline witResample witImageL).shape = [300, 300, 3] ∧
    ∃ v : Nat, v ≤ 255 ∧
      (normalizePipeline witResample witImageL).data [0, 0, 0] = (v : ℚ) / 255 ∧
      0 ≤ (normalizePipeline witResample witImageL).data [0, 0, 0] ∧
      (normalizePipeline witResample witImageL).data [0, 0, 0] ≤ 1) :=
  ⟨by decide, by decide, by decide,
    normalize_shape_and_range witResample witImageL 0 0 0
      (by decide) (by decide) (by decide)⟩

/-- preprocess of a single-channel image yields a 2-dimensional array. -/
theorem preprocess_shape_single (resample : Resample) (image : PILImage)
    (h : image.mode = Mode.L) :
    (preprocess resample image).shape = [300, 300] := by
  simp [preprocess, npArrayU8, PILImage.resize, h, Mode.channels]

/-- preprocess of an RGBA image yields a 300 by 300 by 4 array. -/
theorem preprocess_shape_RGBA (resample : Resample) (image : PILImage)
    (h : image.mode = Mode.RGBA) :
    (preprocess resample image).shape = [300, 300, 4] := by
  simp [preprocess, npArrayU8, PILImage.resize, h, Mode.channels]

/-- C9: preprocess performs no color-mode conversion by itself: on a
grayscale input it yields a 2-dimensional 300 by 300 array with no channel
axis, and on an RGBA input a 300 by 300 by 4 array; the 300 by 300 by 3
shape holds only for the composed per-request pipeline, which converts to
RGB before calling preprocess. -/
theorem preprocess_alone_no_mode_conversion (resample : Resample)
    (imgL imgA : PILImage) (hL : imgL.mode = Mode.L) (hA : imgA.mode = Mode.RGBA) :
    (preprocess resample imgL).shape = [300, 300] ∧
    (preprocess resample imgA).shape = [300, 300, 4] ∧
    (normalizePipeline resample imgL).shape = [300, 300, 3] ∧
    (normalizePipeline resample imgA).shape = [300, 300, 3] := by
  refine ⟨preprocess_shape_single resample imgL hL,
    preprocess_shape_RGBA resample imgA hA, ?_, ?_⟩
  · exact (normalize_shape_and_range resample imgL 0 0 0
      (by norm_num) (by norm_num) (by norm_num)).1
  · exact (normalize_shape_and_range resample imgA 0 0 0
      (by norm_num) (by norm_num) (by norm_num)).1

/-- Witness for C9 at concrete grayscale and RGBA images. -/
theorem preprocess_alone_no_mode_conversion_witness :
    witImageL.mode = Mode.L ∧ witImageRGBA.mode = Mode.RGBA ∧
    ((preprocess witResample witImageL).shape = [300, 300] ∧
    (preprocess witResample witImageRGBA).shape = [300, 300, 4] ∧
    (normalizePipeline witResample witImageL).shape = [300, 300, 3] ∧
    (normalizePipeline witResample witImageRGBA).shape = [300, 300, 3]) :=
  ⟨rfl, rfl,
    preprocess_alone_no_mode_conversion witResample witImageL witImageRGBA rfl rfl⟩

/-- argmaxWithVal is none only on the empty vector. -/
theorem argmaxWithVal_eq_none {xs : List ℚ} (h : argmaxWithVal xs = none) :
    xs = [] := by
  cases xs with
  | nil => rfl
  | cons x xs => simp [argmaxWithVal] at h

/-- argmaxWithVal is defined on every nonempty vector. -/
theorem argmaxWithVal_isSome_of_ne_nil {l : List ℚ} (h : l ≠ []) :
    ∃ q, argmaxWithVal l = some q := by
  cases l with
  | nil => exact absurd rfl h
  | cons x xs => exact ⟨_, rfl⟩

/-- The index returned by argmaxWithVal is in range, holds the returned
value, that value bounds every entry, and every entry strictly before the
index is strictly below it (first-maximum tie-breaking). -/
theorem argmaxWithVal_spec (l : List ℚ) :
    ∀ (j : Nat) (v : ℚ), argmaxWithVal l = some (j, v) →
    ∃ hj : j < l.length,
      l.get ⟨j, hj⟩ = v ∧
      (∀ (k : Nat) (hk : k < l.length), l.get ⟨k, hk⟩ ≤ v) ∧
      (∀ (k : Nat) (hk : k < l.length), k < j → l.get ⟨k, hk⟩ < v) := by
  induction l with
  | nil => intro j v h; simp [argmaxWithVal] at h
  | cons x xs ih =>
    intro j v h
    simp only [argmaxWithVal, Option.some.injEq] at h
    cases hxs : argmaxWithVal xs with
    | none =>
      have hnil := argmaxWithVal_eq_none hxs
      subst hnil
      simp only [argmaxWithVal, argmaxStep] at h
      injection h with h1 h2
      subst h1
      subst h2
      refine ⟨by simp, rfl, ?_, ?_⟩
      · intro k hk
        cases k with
        | zero => exact le_refl x
        | succ k2 => simp at hk
      · intro k hk hk0
        exact absurd hk0 (Nat.not_lt_zero k)
    | some q =>
      obtain ⟨j2, v2⟩ := q
      rw [hxs] at h
      simp only [argmaxStep] at h
      obtain ⟨hj2, hget2, hle2, hlt2⟩ := ih j2 v2 hxs
      by_cases hv : v2 > x
      · rw [if_pos hv] at h
        injection h with h1 h2
        subst h1
        subst h2
        refine ⟨Nat.succ_lt_succ hj2, hget2, ?_, ?_⟩
        · intro k hk
          cases k with
          | zero => exact le_of_lt hv
          | succ k2 => exact hle2 k2 (Nat.lt_of_succ_lt_succ hk)
        · intro k hk hkj
          cases k with
          | zero => exact hv
          | succ k2 =>
            exact hlt2 k2 (Nat.lt_of_succ_lt_succ hk) (Nat.lt_of_succ_lt_succ hkj)
      · rw [if_neg hv] at h
        injection h with h1 h2
        subst h1
        subst h2
        refine ⟨Nat.succ_pos _, rfl, ?_, ?_⟩
        · intro k hk
          cases k with
          | zero => exact le_refl x
          | succ k2 =>
            exact le_trans (hle2 k2 (Nat.lt_of_succ_lt_succ hk)) (le_of_not_lt hv)
        · intro k hk hkj
          exact absurd hkj (Nat.not_lt_zero k)

/-- np_max computes the value component of argmaxWithVal. -/
theorem np_max_eq (l : List ℚ) :
    np_max l = (argmaxWithVal l).map Prod.snd := by
  induction l with
  | nil => rfl
  | cons x xs ih =>
    cases hxs : argmaxWithVal xs with
    | none =>
      simp only [np_max, argmaxWithVal, ih, hxs]
      rfl
    | some q =>
      obtain ⟨j, v⟩ := q
      simp only [np_max, argmaxWithVal, ih, hxs, Option.map_some', maxStep, argmaxStep]
      by_cases hv : v > x
      · rw [if_pos hv, max_eq_right (le_of_lt hv)]
      · rw [if_neg hv, max_eq_left (le_of_not_lt hv)]

/-- Every index below six has a label. -/
theorem LABELS_of_lt_six (j : Nat) (h : j < 6) : ∃ s, LABELS j = some s := by
  interval_cases j <;> exact ⟨_, rfl⟩

/-- Indices of six or above miss the label table (a Python KeyError). -/
theorem LABELS_of_six_le (j : Nat) (h : 6 ≤ j) : LABELS j = none := by
  obtain ⟨n, rfl⟩ : ∃ n, j = n + 6 := ⟨j - 6, by omega⟩
  rfl

/-- When argmax and the label lookup succeed, the post-inference part of
the pipeline builds the success response from the argmax value and the
looked-up label. -/
theorem postInference_ok (p : List ℚ) (j : Nat) (v : ℚ) (s : String)
    (hA : argmaxWithVal p = some (j, v)) (hL : LABELS j = some s) :
    postInference p = .ok
      { predicted_class := s
        confidence := v
        bin := (classify_recyclable s).1
        servo_angle := (classify_recyclable s).2 } := by
  have hidx : np_argmax p = some j := by simp [np_argmax, hA]
  have hmax : np_max p = some v := by simp [np_max_eq, hA]
  simp [postInference, hidx, hmax, hL, exceptOfOption]

/-- C3: on any length-6 probability row, numpy argmax picks an in-range
index whose entry is the maximum, ties broken by the lowest index, numpy
max returns that entry, and the post-inference pipeline succeeds with that
entry as the confidence and the label at that index as the predicted
class. -/
theorem predict_argmax_first_max_confidence (p : List ℚ) (h6 : p.length = 6) :
    ∃ (j : Nat) (v : ℚ) (hj : j < p.length),
      np_argmax p = some j ∧ np_max p = some v ∧
      p.get ⟨j, hj⟩ = v ∧
      (∀ (k : Nat) (hk : k < p.length), p.get ⟨k, hk⟩ ≤ v) ∧
      (∀ (k : Nat) (hk : k < p.length), k < j → p.get ⟨k, hk⟩ < v) ∧
      ∃ (r : PredictOk) (s : String),
        postInference p = .ok r ∧ r.confidence = v ∧
        LABELS j = some s ∧ r.predicted_class = s := by
  have hne : p ≠ [] := by
    intro h
    rw [h] at h6
    simp at h6
  obtain ⟨⟨j, v⟩, hA⟩ := argmaxWithVal_isSome_of_ne_nil hne
  obtain ⟨hj, hget, hle, hlt⟩ := argmaxWithVal_spec p j v hA
  have hjlt : j < 6 := by rw [h6] at hj; exact hj
  obtain ⟨s, hs⟩ := LABELS_of_lt_six j hjlt
  refine ⟨j, v, ?_, ?_, ?_, ?_, hle, hlt, ?_⟩
  · rw [h6]; exact hjlt
  · simp [np_argmax, hA]
  · simp [np_max_eq, hA]
  · exact hget
  · exact ⟨_, s, postInference_ok p j v s hA hs, rfl, hs, rfl⟩

/-- Witness for C3 at a concrete row whose maximum sits at index 1. -/
theorem predict_argmax_first_max_confidence_witness :
    ([0, 1, 0, 0, 0, 0] : List ℚ).length = 6 ∧
    (∃ (j : Nat) (v : ℚ) (hj : j < ([0, 1, 0, 0, 0, 0] : List ℚ).length),
      np_argmax [0, 1, 0, 0, 0, 0] = some j ∧
      np_max [0, 1, 0, 0, 0, 0] = some v ∧
      ([0, 1, 0, 0, 0, 0] : List ℚ).get ⟨j, hj⟩ = v ∧
      (∀ (k : Nat) (hk : k < ([0, 1, 0, 0, 0, 0] : List ℚ).length),
        ([0, 1, 0, 0, 0, 0] : List ℚ).get ⟨k, hk⟩ ≤ v) ∧
      (∀ (k : Nat) (hk : k < ([0, 1, 0, 0, 0, 0] : List ℚ).length),
        k < j → ([0, 1, 0, 0, 0, 0] : List ℚ).get ⟨k, hk⟩ < v) ∧
      ∃ (r : PredictOk) (s : String),
        postInference [0, 1, 0, 0, 0, 0] = .ok r ∧ r.confidence = v ∧
        LABELS j = some s ∧ r.predicted_class = s) :=
  ⟨rfl, predict_argmax_first_max_confidence [0, 1, 0, 0, 0, 0] rfl⟩

/-- C10: when the inference output row's argmax index lies outside the
label table (six or above), the failed lookup is caught by the handler's
catch-all, which answers the 400 processing-error response embedding the
missing key, rather than crashing. -/
theorem predict_argmax_out_of_label_range (m : Model) (resample : Resample)
    (image : PILImage) (p : List ℚ) (j : Nat)
    (hm : m (expand_dims0 (normalizePipeline resample image)) = .ok [p])
    (hj : np_argmax p = some j) (h6 : 6 ≤ j) :
    predict (some m) resample (.ok image) =
      .processingError ("Error processing image: " ++ toString j) ∧
    (predict (some m) resample (.ok image)).status = 400 := by
  rw [np_argmax, Option.map_eq_some'] at hj
  obtain ⟨⟨j2, v⟩, hA, hjj⟩ := hj
  simp only at hjj
  subst hjj
  have hidx : np_argmax p = some j2 := by simp [np_argmax, hA]
  have hmax : np_max p = some v := by simp [np_max_eq, hA]
  have hpost : postInference p = .error (toString j2) := by
    simp [postInference, hidx, hmax, exceptOfOption, LABELS_of_six_le j2 h6]
  have hpipe : predictPipeline m resample (.ok image) = .error (toString j2) := by
    simp [predictPipeline, hm, exceptOfOption, hpost]
  refine ⟨?_, ?_⟩ <;> simp [predict, hpipe, PredictResult.status]

/-- Witness for C10 at a concrete model whose output row is 7 wide with
its maximum at index 6. -/
theorem predict_argmax_out_of_label_range_witness :
    witModel7 (expand_dims0 (normalizePipeline witResample witImageRGB)) =
      .ok [[0, 0, 0, 0, 0, 0, 1]] ∧
    np_argmax [0, 0, 0, 0, 0, 0, 1] = some 6 ∧ 6 ≤ 6 ∧
    (predict (some witModel7) witResample (.ok witImageRGB) =
      .processingError ("Error processing image: " ++ toString 6) ∧
    (predict (some witModel7) witResample (.ok witImageRGB)).status = 400) :=
  ⟨rfl, by decide, by decide,
    predict_argmax_out_of_label_range witModel7 witResample witImageRGB
      [0, 0, 0, 0, 0, 0, 1] 6 rfl (by decide) (by decide)⟩

end SmartGarbage
